import Mathlib

/-!
Shallow embedding of the Coinbase adapter module
(`src/coinbase/mod.rs` of notdanilo/openlimits) and proofs about its
conversions between the exchange-native wire model and the shared domain
model.  Rust `u64`/`u32` values are modelled as `Nat` with explicit
`% 2^64` where wrap-around matters; `Decimal` price/size fields are
modelled as `Rat` (the conversions only copy them); fallible code returns
`Except`; code paths that can abort the process (Rust `panic`, via
`unwrap()` or `unimplemented!`) are modelled by a distinct `ExecResult`
constructor so that a panic is never conflated with a typed error.
-/

/-- Outcome of running a piece of Rust code that may return a value,
return a typed error, or abort the process (panic). -/
inductive ExecResult (ε α : Type) where
  | ok (a : α)
  | error (e : ε)
  | panicked (msg : String)
deriving DecidableEq, Repr

/-- Modelled from the spec (§7): the shared error taxonomy
`OpenLimitError` lives in `errors.rs`, which is not under `src/`; the
constructors are the spec's taxonomy (`ConfigError`, `AuthenticationError`,
`NetworkError`, `ExchangeError{code,message}`, `DeserializationError`,
`MissingParameter`, `UnsupportedOperation`). -/
inductive OpenLimitError where
  | ConfigError (msg : String)
  | AuthenticationError (msg : String)
  | NetworkError (msg : String)
  | ExchangeError (code : Nat) (msg : String)
  | DeserializationError (msg : String)
  | MissingParameter (msg : String)
  | UnsupportedOperation (msg : String)
deriving DecidableEq, Repr

/-- Domain order side (`model::Side` of the shared domain model). -/
inductive Side where
  | Buy
  | Sell
deriving DecidableEq, Repr

/-- Domain liquidity flag (`model::Liquidity` of the shared domain model). -/
inductive Liquidity where
  | Maker
  | Taker
deriving DecidableEq, Repr

/-- Domain order status: the fixed exchange-agnostic enum
{Active, Filled, Open, Pending, Rejected, Canceled} (spec §3). -/
inductive OrderStatus where
  | Active
  | Filled
  | Open
  | Pending
  | Rejected
  | Canceled
deriving DecidableEq, Repr

/-- Native Coinbase order status.  The source's `From<model::OrderStatus>`
match at `mod.rs:414-424` is exhaustive over exactly these five variants
with no catch-all, which fixes the native enum. -/
inductive model.OrderStatus where
  | Active
  | Done
  | Open
  | Pending
  | Rejected
deriving DecidableEq, Repr

/-- Embedding of `impl From<model::OrderStatus> for OrderStatus` (`mod.rs:414-424`). -/
def OrderStatus.from_native : model.OrderStatus → OrderStatus
  | model.OrderStatus.Active => OrderStatus.Active
  | model.OrderStatus.Done => OrderStatus.Filled
  | model.OrderStatus.Open => OrderStatus.Open
  | model.OrderStatus.Pending => OrderStatus.Pending
  | model.OrderStatus.Rejected => OrderStatus.Rejected

/-- A `chrono` datetime, modelled by its millisecond timestamp (`i64`). -/
structure NaiveDateTime where
  millis : Int
deriving DecidableEq, Repr

/-- Embedding of `DateTime::timestamp_millis()`. -/
def NaiveDateTime.timestamp_millis (d : NaiveDateTime) : Int := d.millis

/-- Rust `as u64` on an `i64` value: two's-complement reinterpretation,
i.e. reduction modulo `2^64`. -/
def u64_of_i64 (i : Int) : Nat := (i % (2 : Int) ^ 64).toNat

/-- Native Coinbase fill (`model::Fill`, from `model.rs`): the fields the
conversion at `mod.rs:274-295` reads.  `side` and `liquidity` are wire-level
strings. -/
structure model.Fill where
  trade_id : Nat
  order_id : String
  product_id : String
  price : Rat
  size : Rat
  fee : Rat
  side : String
  liquidity : String
  created_at : NaiveDateTime
deriving DecidableEq, Repr

/-- Domain trade (`model::Trade` of the shared domain model); for Coinbase
`TradeId = u64` and `OrderId = String` (`mod.rs:88-92`). -/
structure Trade where
  id : Nat
  order_id : String
  market_pair : String
  price : Rat
  qty : Rat
  fees : Option Rat
  side : Side
  liquidity : Option Liquidity
  created_at : Nat
deriving DecidableEq, Repr

/-- Embedding of `impl From<model::Fill> for Trade<Exchange<Coinbase>>` (`mod.rs:274-295`):
the side string is matched against `"buy"` with a catch-all to `Side::Sell`,
and the liquidity string against `"M"`/`"T"` with a catch-all to `None`. -/
def Trade.from_Fill (fill : model.Fill) : Trade :=
  { id := fill.trade_id
    order_id := fill.order_id
    market_pair := fill.product_id
    price := fill.price
    qty := fill.size
    fees := some fill.fee
    side := match fill.side with
      | "buy" => Side.Buy
      | _ => Side.Sell
    liquidity := match fill.liquidity with
      | "M" => some Liquidity.Maker
      | "T" => some Liquidity.Taker
      | _ => none
    created_at := u64_of_i64 fill.created_at.timestamp_millis }

/-- The abstract interval enum (`model::Interval` of the shared domain
model, not under `src/`).  The six variants with a named branch in the
source's `TryFrom<Interval> for u32` match (`mod.rs:318-334`) are fixed by
the source; the remaining variants are modelled from the spec's
"OneMinute, FiveMinutes, …" ellipsis (the catch-all `_` branch of the
source match proves more variants exist). -/
inductive domain.Interval where
  | OneMinute
  | ThreeMinutes
  | FiveMinutes
  | FifteenMinutes
  | ThirtyMinutes
  | OneHour
  | TwoHours
  | FourHours
  | SixHours
  | EightHours
  | TwelveHours
  | OneDay
  | ThreeDays
  | OneWeek
  | OneMonth
deriving DecidableEq, Repr

/-- The Rust `{:?}` (derived `Debug`) rendering of an `Interval` value,
used by the source's `MissingParameter` message. -/
def domain.Interval.debugName : domain.Interval → String
  | domain.Interval.OneMinute => "OneMinute"
  | domain.Interval.ThreeMinutes => "ThreeMinutes"
  | domain.Interval.FiveMinutes => "FiveMinutes"
  | domain.Interval.FifteenMinutes => "FifteenMinutes"
  | domain.Interval.ThirtyMinutes => "ThirtyMinutes"
  | domain.Interval.OneHour => "OneHour"
  | domain.Interval.TwoHours => "TwoHours"
  | domain.Interval.FourHours => "FourHours"
  | domain.Interval.SixHours => "SixHours"
  | domain.Interval.EightHours => "EightHours"
  | domain.Interval.TwelveHours => "TwelveHours"
  | domain.Interval.OneDay => "OneDay"
  | domain.Interval.ThreeDays => "ThreeDays"
  | domain.Interval.OneWeek => "OneWeek"
  | domain.Interval.OneMonth => "OneMonth"

/-- Embedding of `impl TryFrom<Interval> for u32` (`mod.rs:318-334`): the Coinbase
native granularity in seconds, or `MissingParameter` for an interval the
backend does not support. -/
def u32.try_from_Interval : domain.Interval → Except OpenLimitError Nat
  | domain.Interval.OneMinute => Except.ok 60
  | domain.Interval.FiveMinutes => Except.ok 300
  | domain.Interval.FifteenMinutes => Except.ok 900
  | domain.Interval.OneHour => Except.ok 3600
  | domain.Interval.SixHours => Except.ok 21600
  | domain.Interval.OneDay => Except.ok 86400
  | value =>
      Except.error (OpenLimitError.MissingParameter
        (value.debugName ++ " is not supported in Coinbase"))

/-- Whether an interval has a named `Ok` branch in the source's
`TryFrom<Interval> for u32` match (`mod.rs:322-327`). -/
def domain.Interval.coinbaseSupported : domain.Interval → Bool
  | domain.Interval.OneMinute => true
  | domain.Interval.FiveMinutes => true
  | domain.Interval.FifteenMinutes => true
  | domain.Interval.OneHour => true
  | domain.Interval.SixHours => true
  | domain.Interval.OneDay => true
  | _ => false

/-- Domain paginator (`model::Paginator<E>` of the shared domain model);
for Coinbase `Pagination = u64` (`mod.rs:91`), so `before`/`after` are
optional `u64` cursors. -/
structure domain.Paginator where
  start_time : Option Nat
  end_time : Option Nat
  limit : Option Nat
  before : Option Nat
  after : Option Nat
deriving DecidableEq, Repr

/-- Native Coinbase pagination token (`model::Paginator` of `model.rs`):
the three fields written by the conversion at `mod.rs:357-365`. -/
structure model.Paginator where
  after : Option Nat
  before : Option Nat
  limit : Option Nat
deriving DecidableEq, Repr

/-- Embedding of `impl From<Paginator<Exchange<Coinbase>>> for model::Paginator`
(`mod.rs:357-365`). -/
def model.Paginator.from_domain (paginator : domain.Paginator) : model.Paginator :=
  { after := paginator.after
    before := paginator.before
    limit := paginator.limit }

/-- Modelled from the spec: the reverse conversion, from the adapter's
native pagination token back into a domain `Paginator`, is not under
`src/`; per the spec's round-trip property it carries `before`, `after`
and `limit` back unchanged (the token holds no time-window fields, so the
domain time fields come back empty). -/
def domain.Paginator.from_native (paginator : model.Paginator) : domain.Paginator :=
  { start_time := none
    end_time := none
    limit := paginator.limit
    before := paginator.before
    after := paginator.after }

/-- Modelled from the spec: `timestamp_to_naive_datetime` from the shared
module (not under `src/`) turns a caller-supplied `u64` millisecond
timestamp into a datetime value. -/
def timestamp_to_naive_datetime (ts : Nat) : NaiveDateTime :=
  { millis := (ts : Int) }

/-- Native Coinbase date range (`model::DateRange` of `model.rs`): the two
fields written by the conversion at `mod.rs:377-384`. -/
structure model.DateRange where
  start : Option NaiveDateTime
  «end» : Option NaiveDateTime
deriving DecidableEq, Repr

/-- Embedding of `impl From<Paginator<Exchange<Coinbase>>> for model::DateRange`
(`mod.rs:377-384`). -/
def model.DateRange.from_Paginator (paginator : domain.Paginator) : model.DateRange :=
  { start := paginator.start_time.map timestamp_to_naive_datetime
    «end» := paginator.end_time.map timestamp_to_naive_datetime }

/-- Domain historic-rates request (`model::GetHistoricRatesRequest<E>` of
the shared domain model): the fields read at `mod.rs:109-114` and
`mod.rs:336-345`. -/
structure GetHistoricRatesRequest where
  market_pair : String
  paginator : Option domain.Paginator
  interval : domain.Interval
deriving DecidableEq, Repr

/-- Native Coinbase candle-request parameters (`model::CandleRequestParams`
of `model.rs`): the fields written at `mod.rs:340-343`. -/
structure model.CandleRequestParams where
  daterange : Option model.DateRange
  granularity : Option Nat
deriving DecidableEq, Repr

/-- Embedding of `impl TryFrom<&GetHistoricRatesRequest<Exchange<Coinbase>>> for
model::CandleRequestParams` (`mod.rs:336-345`): the `?` on the interval
conversion propagates its error before anything else happens. -/
def model.CandleRequestParams.try_from (params : GetHistoricRatesRequest) :
    Except OpenLimitError model.CandleRequestParams :=
  match u32.try_from_Interval params.interval with
  | Except.error e => Except.error e
  | Except.ok granularity =>
      Except.ok
        { daterange := params.paginator.map model.DateRange.from_Paginator
          granularity := some granularity }

/-- Native Coinbase candle (`model::Candle` of `model.rs`): `time` is a
`u64` in seconds, the numeric fields the conversion at `mod.rs:305-316`
copies. -/
structure model.Candle where
  time : Nat
  low : Rat
  high : Rat
  «open» : Rat
  close : Rat
  volume : Rat
deriving DecidableEq, Repr

/-- Domain candle (`model::Candle` of the shared domain model): `time` is
a `u64` in milliseconds. -/
structure Candle where
  time : Nat
  low : Rat
  high : Rat
  «open» : Rat
  close : Rat
  volume : Rat
deriving DecidableEq, Repr

/-- Embedding of `impl From<model::Candle> for Candle` (`mod.rs:305-316`):
`time: candle.time * 1000` is a `u64` multiplication, modelled with its
wrap-around modulo `2^64`; all other fields are copied unchanged. -/
def Candle.from_native (candle : model.Candle) : Candle :=
  { time := (candle.time * 1000) % 2 ^ 64
    low := candle.low
    high := candle.high
    «open» := candle.«open»
    close := candle.close
    volume := candle.volume }

/-- Native Coinbase L2 book record (`model::BookRecordL2` of `model.rs`):
the fields read at `mod.rs:134-141`. -/
structure model.BookRecordL2 where
  price : Rat
  size : Rat
deriving DecidableEq, Repr

/-- Native Coinbase book (`model::Book<model::BookRecordL2>` of
`model.rs`): a sequence number and the bid/ask records. -/
structure model.Book where
  sequence : Nat
  bids : List model.BookRecordL2
  asks : List model.BookRecordL2
deriving DecidableEq, Repr

/-- Domain bid/ask entry (`model::AskBid` of the shared domain model). -/
structure AskBid where
  price : Rat
  qty : Rat
deriving DecidableEq, Repr

/-- Domain order-book response (`model::OrderBookResponse` of the shared
domain model). -/
structure OrderBookResponse where
  last_update_id : Option Nat
  bids : List AskBid
  asks : List AskBid
deriving DecidableEq, Repr

/-- Embedding of `impl From<model::BookRecordL2> for AskBid`
(`mod.rs:134-141`). -/
def AskBid.from_BookRecordL2 (bids : model.BookRecordL2) : AskBid :=
  { price := bids.price
    qty := bids.size }

/-- Embedding of `impl From<model::Book<model::BookRecordL2>> for
OrderBookResponse` (`mod.rs:124-132`). -/
def OrderBookResponse.from_Book (book : model.Book) : OrderBookResponse :=
  { last_update_id := none
    bids := book.bids.map AskBid.from_BookRecordL2
    asks := book.asks.map AskBid.from_BookRecordL2 }

/-- Domain historic-trades request (`model::GetHistoricTradesRequest<E>`
of the shared domain model); its contents are never read by the Coinbase
implementation. -/
structure GetHistoricTradesRequest where
  market_pair : String
  paginator : Option domain.Paginator
deriving DecidableEq, Repr

/-- Embedding of `ExchangeMarketData::get_historic_trades` for Coinbase
(`mod.rs:116-121`): the body is `unimplemented!("Only implemented for Nash
right now")`, which aborts via panic for every request. -/
def get_historic_trades (_req : GetHistoricTradesRequest) :
    ExecResult OpenLimitError (List Trade) :=
  ExecResult.panicked "not implemented: Only implemented for Nash right now"

/-- Embedding of `ExchangeMarketData::get_historic_rates` for Coinbase
(`mod.rs:109-114`), parameterized over `Coinbase::candles` (defined in
`client/`, not under `src/`), the network call that fetches candles.  The
Boolean component records whether `candles` was invoked. -/
def get_historic_rates
    (candles : String → Option model.CandleRequestParams →
      Except OpenLimitError (List model.Candle))
    (req : GetHistoricRatesRequest) :
    Except OpenLimitError (List Candle) × Bool :=
  match model.CandleRequestParams.try_from req with
  | Except.error e => (Except.error e, false)
  | Except.ok params =>
      ((candles req.market_pair (some params)).map
        (fun v => v.map Candle.from_native), true)

/-- Coinbase credentials (`mod.rs:32-36`). -/
structure CoinbaseCredentials where
  api_key : String
  api_secret : String
  passphrase : String
deriving DecidableEq, Repr

/-- Coinbase construction parameters (`mod.rs:38-42`). -/
structure CoinbaseParameters where
  sandbox : Bool
  credentials : Option CoinbaseCredentials

/-- The `Coinbase` struct (`mod.rs:26-30`), parameterized over the
`ExchangeInfo` and `Transport` types, which are defined outside `src/`. -/
structure Coinbase (ι τ : Type) where
  exchange_info : ι
  transport : τ

/-- Embedding of `ExchangeEssentials::new for Coinbase` (`mod.rs:60-85`),
parameterized over the collaborators not under `src/`: `ExchangeInfo::new`,
`Transport::with_credential`, `Transport::new`, and the outcome of
`refresh_market_info()`.  Both the transport construction and the initial
refresh are `.unwrap()`ed in the source, so an `Err` from either aborts
the process (panic) instead of returning a typed error.  The second
component counts how many times `refresh_market_info` was invoked. -/
def coinbase_new {ι τ : Type}
    (exchange_info_new : ι)
    (transport_with_credential :
      String → String → String → Bool → Except OpenLimitError τ)
    (transport_new : Bool → Except OpenLimitError τ)
    (refresh_market_info : Except OpenLimitError Unit)
    (parameters : CoinbaseParameters) :
    ExecResult OpenLimitError (Coinbase ι τ) × Nat :=
  let transport : Except OpenLimitError τ :=
    match parameters.credentials with
    | some credentials =>
        transport_with_credential credentials.api_key credentials.api_secret
          credentials.passphrase parameters.sandbox
    | none => transport_new parameters.sandbox
  match transport with
  | Except.error _ =>
      (ExecResult.panicked "called Result::unwrap on an Err value", 0)
  | Except.ok t =>
      match refresh_market_info with
      | Except.error _ =>
          (ExecResult.panicked "called Result::unwrap on an Err value", 1)
      | Except.ok _ =>
          (ExecResult.ok { exchange_info := exchange_info_new, transport := t }, 1)

/-- A concrete native fill whose wire side string (`"hold"`) is not one of
the documented values `"buy"`/`"sell"`. -/
def fillWithUnknownSide : model.Fill :=
  { trade_id := 11
    order_id := "d50ec984-77a8-460a-b958-66f114b0de9b"
    product_id := "BTC-USD"
    price := 100
    size := 2
    fee := 1 / 10
    side := "hold"
    liquidity := "M"
    created_at := { millis := 1609459200000 } }

/-- A concrete native fill whose liquidity string (`"X"`) is neither `"M"`
nor `"T"`. -/
def fillWithUnknownLiquidity : model.Fill :=
  { trade_id := 12
    order_id := "b3a7c912-0fe1-4f22-9d55-10aa41c2ffe0"
    product_id := "ETH-USD"
    price := 50
    size := 4
    fee := 0
    side := "buy"
    liquidity := "X"
    created_at := { millis := 1609459300000 } }

/-- A candles oracle that always succeeds with an empty list, used to show
that the unsupported-interval outcome does not depend on the network. -/
def constantCandles : String → Option model.CandleRequestParams →
    Except OpenLimitError (List model.Candle) :=
  fun _ _ => Except.ok []

/-- A concrete historic-rates request whose interval (`ThreeMinutes`) has
no named branch in the Coinbase granularity match. -/
def threeMinutesRequest : GetHistoricRatesRequest :=
  { market_pair := "BTC-USD"
    paginator := none
    interval := domain.Interval.ThreeMinutes }

/-- A concrete native book with one bid and one ask. -/
def sampleBook : model.Book :=
  { sequence := 7
    bids := [{ price := 3, size := 2 }]
    asks := [{ price := 4, size := 1 }] }

/-- A concrete native candle with a realistic epoch-seconds time. -/
def sampleNativeCandle : model.Candle :=
  { time := 1609459200
    low := 28
    high := 30
    «open» := 29
    close := 29
    volume := 1000 }

/-- The side field of a converted fill is the `"buy"` test from the source
match, written as an `ite`. -/
theorem Trade.from_Fill_side (fill : model.Fill) :
    (Trade.from_Fill fill).side =
      if fill.side = "buy" then Side.Buy else Side.Sell := by
  show (match fill.side with
    | "buy" => Side.Buy
    | _ => Side.Sell) = _
  split
  · rename_i heq
    rw [if_pos heq]
  · rename_i h
    rw [if_neg h]

/-- The liquidity field of a converted fill is the `"M"`/`"T"` test chain
from the source match, written as an `ite` chain. -/
theorem Trade.from_Fill_liquidity (fill : model.Fill) :
    (Trade.from_Fill fill).liquidity =
      if fill.liquidity = "M" then some Liquidity.Maker
      else if fill.liquidity = "T" then some Liquidity.Taker
      else none := by
  show (match fill.liquidity with
    | "M" => some Liquidity.Maker
    | "T" => some Liquidity.Taker
    | _ => none) = _
  split
  · rename_i heq
    rw [if_pos heq]
  · rename_i heq
    rw [heq, if_neg (by decide), if_pos rfl]
  · rename_i h1 h2
    rw [if_neg h1, if_neg h2]

/-- An interval with no named branch in the granularity match takes the
catch-all `MissingParameter` branch. -/
theorem u32_try_from_of_unsupported (i : domain.Interval)
    (h : i.coinbaseSupported = false) :
    u32.try_from_Interval i =
      Except.error (OpenLimitError.MissingParameter
        (i.debugName ++ " is not supported in Coinbase")) := by
  cases i <;>
    simp_all [domain.Interval.coinbaseSupported, u32.try_from_Interval,
      domain.Interval.debugName]

/-- C1: the claim says a native fill whose wire side string is not one of
`"buy"`/`"sell"` fails conversion with a `DeserializationError` and is in
particular never coerced to `Side::Sell`.  The source's conversion is an
infallible `From` whose match sends every non-`"buy"` side string — the
undocumented ones included — to `Side::Sell`; this theorem exhibits that
divergence: every fill whose side string differs from `"buy"` converts to
a `Trade` with side `Sell`. -/
theorem c1_unrecognized_side_coerced_to_sell (fill : model.Fill)
    (h : fill.side ≠ "buy") :
    (Trade.from_Fill fill).side = Side.Sell := by
  rw [Trade.from_Fill_side, if_neg h]

/-- C1 witness: the concrete fill with side string `"hold"` is converted
to a `Trade` with side `Sell`. -/
theorem c1_witness :
    fillWithUnknownSide.side ≠ "buy" ∧
    (Trade.from_Fill fillWithUnknownSide).side = Side.Sell :=
  ⟨by decide, c1_unrecognized_side_coerced_to_sell fillWithUnknownSide (by decide)⟩

/-- C2: the claim says `get_historic_trades` on the Coinbase backend
returns the discriminated `UnsupportedOperation` error outcome and never
aborts the process.  The source's body is
`unimplemented!("Only implemented for Nash right now")`, which panics:
for every request the outcome is a panic, not an `Err` (and not an `Ok`). -/
theorem c2_get_historic_trades_panics (req : GetHistoricTradesRequest) :
    get_historic_trades req =
      ExecResult.panicked "not implemented: Only implemented for Nash right now" ∧
    (∀ e : OpenLimitError, get_historic_trades req ≠ ExecResult.error e) ∧
    (∀ trades : List Trade, get_historic_trades req ≠ ExecResult.ok trades) :=
  ⟨rfl, fun _ h => ExecResult.noConfusion h, fun _ h => ExecResult.noConfusion h⟩

/-- C3: the conversion from the abstract `Interval` to the Coinbase native
granularity maps `OneMinute ↦ 60`, `FiveMinutes ↦ 300`,
`FifteenMinutes ↦ 900`, `OneHour ↦ 3600`, `SixHours ↦ 21600`,
`OneDay ↦ 86400`, and every other interval value yields a
`MissingParameter` error, never a substituted default granularity. -/
theorem c3_interval_to_granularity :
    u32.try_from_Interval domain.Interval.OneMinute = Except.ok 60 ∧
    u32.try_from_Interval domain.Interval.FiveMinutes = Except.ok 300 ∧
    u32.try_from_Interval domain.Interval.FifteenMinutes = Except.ok 900 ∧
    u32.try_from_Interval domain.Interval.OneHour = Except.ok 3600 ∧
    u32.try_from_Interval domain.Interval.SixHours = Except.ok 21600 ∧
    u32.try_from_Interval domain.Interval.OneDay = Except.ok 86400 ∧
    ∀ i : domain.Interval, i.coinbaseSupported = false →
      u32.try_from_Interval i =
        Except.error (OpenLimitError.MissingParameter
          (i.debugName ++ " is not supported in Coinbase")) :=
  ⟨rfl, rfl, rfl, rfl, rfl, rfl, u32_try_from_of_unsupported⟩

/-- C3 witness: `OneMonth` has no named granularity branch and converts to
the `MissingParameter` error. -/
theorem c3_witness :
    domain.Interval.OneMonth.coinbaseSupported = false ∧
    u32.try_from_Interval domain.Interval.OneMonth =
      Except.error (OpenLimitError.MissingParameter
        (domain.Interval.OneMonth.debugName ++ " is not supported in Coinbase")) :=
  ⟨rfl, c3_interval_to_granularity.2.2.2.2.2.2 domain.Interval.OneMonth rfl⟩

/-- C4: the converted fill's liquidity is `some Maker` exactly when the
native liquidity string is `"M"`, `some Taker` exactly when it is `"T"`,
and `none` for every other liquidity string (the catch-all branch of the
source match). -/
theorem c4_liquidity_mapping (fill : model.Fill) :
    ((Trade.from_Fill fill).liquidity = some Liquidity.Maker ↔
      fill.liquidity = "M") ∧
    ((Trade.from_Fill fill).liquidity = some Liquidity.Taker ↔
      fill.liquidity = "T") ∧
    (fill.liquidity ≠ "M" → fill.liquidity ≠ "T" →
      (Trade.from_Fill fill).liquidity = none) := by
  rw [Trade.from_Fill_liquidity fill]
  by_cases hM : fill.liquidity = "M"
  · rw [if_pos hM]
    refine ⟨by simp [hM], ?_, fun hcM _ => absurd hM hcM⟩
    rw [hM]
    simp
  · rw [if_neg hM]
    by_cases hT : fill.liquidity = "T"
    · rw [if_pos hT]
      refine ⟨?_, by simp [hT], fun _ hcT => absurd hT hcT⟩
      rw [hT]
      simp
    · rw [if_neg hT]
      exact ⟨by simp [hM], by simp [hT], fun _ _ => rfl⟩

/-- C4 witness: the concrete fill with liquidity string `"X"` converts
with `liquidity = none`. -/
theorem c4_witness :
    fillWithUnknownLiquidity.liquidity ≠ "M" ∧
    fillWithUnknownLiquidity.liquidity ≠ "T" ∧
    (Trade.from_Fill fillWithUnknownLiquidity).liquidity = none :=
  ⟨by decide, by decide,
    (c4_liquidity_mapping fillWithUnknownLiquidity).2.2 (by decide) (by decide)⟩

/-- C5: the native-to-domain order-status conversion is a total function
sending `Active ↦ Active`, `Done ↦ Filled`, `Open ↦ Open`,
`Pending ↦ Pending`, `Rejected ↦ Rejected`; the native enum has exactly
these five variants, so no unmapped native status exists to be silently
defaulted. -/
theorem c5_order_status_mapping :
    OrderStatus.from_native model.OrderStatus.Active = OrderStatus.Active ∧
    OrderStatus.from_native model.OrderStatus.Done = OrderStatus.Filled ∧
    OrderStatus.from_native model.OrderStatus.Open = OrderStatus.Open ∧
    OrderStatus.from_native model.OrderStatus.Pending = OrderStatus.Pending ∧
    OrderStatus.from_native model.OrderStatus.Rejected = OrderStatus.Rejected ∧
    ∀ s : model.OrderStatus,
      s = model.OrderStatus.Active ∨ s = model.OrderStatus.Done ∨
      s = model.OrderStatus.Open ∨ s = model.OrderStatus.Pending ∨
      s = model.OrderStatus.Rejected :=
  ⟨rfl, rfl, rfl, rfl, rfl, fun s => by cases s <;> simp⟩

/-- C6: a historic-rates request whose interval is unsupported fails with
`MissingParameter` and the `candles` network call is never issued: the
outcome is the same for every possible candles oracle, with the
invocation flag `false`. -/
theorem c6_unsupported_interval_fails_before_network
    (candles : String → Option model.CandleRequestParams →
      Except OpenLimitError (List model.Candle))
    (req : GetHistoricRatesRequest)
    (h : req.interval.coinbaseSupported = false) :
    get_historic_rates candles req =
      (Except.error (OpenLimitError.MissingParameter
        (req.interval.debugName ++ " is not supported in Coinbase")), false) := by
  unfold get_historic_rates model.CandleRequestParams.try_from
  rw [u32_try_from_of_unsupported req.interval h]

/-- C6 witness: a `ThreeMinutes` request against an always-succeeding
candles oracle fails with `MissingParameter` without invoking the
oracle. -/
theorem c6_witness :
    threeMinutesRequest.interval.coinbaseSupported = false ∧
    get_historic_rates constantCandles threeMinutesRequest =
      (Except.error (OpenLimitError.MissingParameter
        (threeMinutesRequest.interval.debugName ++
          " is not supported in Coinbase")), false) :=
  ⟨rfl,
    c6_unsupported_interval_fails_before_network constantCandles
      threeMinutesRequest rfl⟩

/-- C7: converting a domain `Paginator` to the adapter's native pagination
token and back preserves `before`, `after` and `limit` exactly. -/
theorem c7_paginator_roundtrip (p : domain.Paginator) :
    (domain.Paginator.from_native (model.Paginator.from_domain p)).before =
      p.before ∧
    (domain.Paginator.from_native (model.Paginator.from_domain p)).after =
      p.after ∧
    (domain.Paginator.from_native (model.Paginator.from_domain p)).limit =
      p.limit :=
  ⟨rfl, rfl, rfl⟩

/-- C8: the conversion of a native L2 book yields `last_update_id = none`
and bid/ask sequences that are the element-wise conversions of the native
ones (same lengths and order, price and size carried over), so a
non-empty native side yields a non-empty domain side. -/
theorem c8_book_conversion (book : model.Book) :
    (OrderBookResponse.from_Book book).last_update_id = none ∧
    (OrderBookResponse.from_Book book).bids =
      book.bids.map AskBid.from_BookRecordL2 ∧
    (OrderBookResponse.from_Book book).asks =
      book.asks.map AskBid.from_BookRecordL2 ∧
    (OrderBookResponse.from_Book book).bids.length = book.bids.length ∧
    (OrderBookResponse.from_Book book).asks.length = book.asks.length ∧
    (∀ r : model.BookRecordL2,
      (AskBid.from_BookRecordL2 r).price = r.price ∧
      (AskBid.from_BookRecordL2 r).qty = r.size) ∧
    (book.bids ≠ [] → (OrderBookResponse.from_Book book).bids ≠ []) ∧
    (book.asks ≠ [] → (OrderBookResponse.from_Book book).asks ≠ []) := by
  refine ⟨rfl, rfl, rfl, ?_, ?_, fun r => ⟨rfl, rfl⟩, ?_, ?_⟩
  · simp [OrderBookResponse.from_Book]
  · simp [OrderBookResponse.from_Book]
  · intro h
    simpa [OrderBookResponse.from_Book] using h
  · intro h
    simpa [OrderBookResponse.from_Book] using h

/-- C8 witness: the concrete one-bid, one-ask native book converts to a
response with non-empty bids and asks. -/
theorem c8_witness :
    sampleBook.bids ≠ [] ∧ sampleBook.asks ≠ [] ∧
    (OrderBookResponse.from_Book sampleBook).bids ≠ [] ∧
    (OrderBookResponse.from_Book sampleBook).asks ≠ [] :=
  ⟨List.cons_ne_nil _ _, List.cons_ne_nil _ _,
    (c8_book_conversion sampleBook).2.2.2.2.2.2.1 (List.cons_ne_nil _ _),
    (c8_book_conversion sampleBook).2.2.2.2.2.2.2 (List.cons_ne_nil _ _)⟩

/-- C9: the claim says construction invokes the exchange-info refresh
exactly once and that a failing initial refresh makes construction fail
as a discriminated error outcome rather than aborting the process.  The
source `.unwrap()`s the refresh result: the refresh is indeed invoked
exactly once, but when it errors the construction panics (aborts) instead
of returning a typed error, as this concrete instantiation shows. -/
theorem c9_new_panics_on_refresh_error :
    @coinbase_new Unit Unit () (fun _ _ _ _ => Except.ok ())
        (fun _ => Except.ok ())
        (Except.error (OpenLimitError.NetworkError "connection timed out"))
        { sandbox := true, credentials := none } =
      (ExecResult.panicked "called Result::unwrap on an Err value", 1) ∧
    @coinbase_new Unit Unit () (fun _ _ _ _ => Except.ok ())
        (fun _ => Except.ok ()) (Except.ok ())
        { sandbox := true, credentials := none } =
      (ExecResult.ok { exchange_info := (), transport := () }, 1) :=
  ⟨rfl, rfl⟩

/-- C10: the native-to-domain candle conversion multiplies the native
epoch-seconds time by 1000 (within the `u64` range) and copies `low`,
`high`, `open`, `close` and `volume` unchanged. -/
theorem c10_candle_conversion (candle : model.Candle) :
    (candle.time * 1000 < 2 ^ 64 →
      (Candle.from_native candle).time = candle.time * 1000) ∧
    (Candle.from_native candle).low = candle.low ∧
    (Candle.from_native candle).high = candle.high ∧
    (Candle.from_native candle).«open» = candle.«open» ∧
    (Candle.from_native candle).close = candle.close ∧
    (Candle.from_native candle).volume = candle.volume :=
  ⟨fun h => Nat.mod_eq_of_lt h, rfl, rfl, rfl, rfl, rfl⟩

/-- C10 witness: the concrete candle with epoch time 1609459200 seconds
converts with time 1609459200000 milliseconds. -/
theorem c10_witness :
    sampleNativeCandle.time * 1000 < 2 ^ 64 ∧
    (Candle.from_native sampleNativeCandle).time =
      sampleNativeCandle.time * 1000 :=
  ⟨by decide, (c10_candle_conversion sampleNativeCandle).1 (by decide)⟩
